import Mathlib

/-!
Verification development for the MedicalChatBot analysis-record store and the
AI-flow output normalization.

The definitions below are a shallow embedding of the TypeScript sources:

* `src/services/firebaseService.ts` — two backends for the per-user
  analysis-record log: a Firestore collection (`getUserAnalyses` /
  `saveAnalysis`) and a localStorage-backed service (`getUserAnalyses` /
  `saveAnalysisResult`), here placed in the namespaces `Firestore` and
  `LocalStorageService`.
* `src/ai/flows/*.ts` — the per-flow null-output checks and the default
  back-fill normalization each Genkit flow applies to the AI model's output.

Modelling conventions:

* A record's `result` payload is a type parameter `R` (the TypeScript value is
  an arbitrary JSON-serializable object; `JSON.parse (JSON.stringify v) = v`
  on such values, so storage is modelled as holding the value itself).
* Timestamps are `Nat` (milliseconds since epoch; the localStorage backend
  stores ISO-8601 text, whose `Date.getTime` round-trip preserves the
  instant, and comparison of instants is comparison of these numbers).
* `localStorage` is a partial map from string keys to stored lists; the
  browser environment is an explicit `LSEnv` value recording whether `window`
  is defined and whether the storage medium faults on read or on write
  (anything the `try`/`catch` blocks in the source could catch).
* JavaScript truthiness on possibly-missing fields: a missing field is
  `Option.none`; a present string is falsy iff empty; a present array is
  always truthy (also when empty).
* `Array.prototype.sort` with a consistent comparator is a stable sort, which
  determines its output uniquely; it is modelled by `List.insertionSort`
  (stable) over the comparator's order.
* Exceptions are modelled by `Except String`, carrying the thrown `Error`
  message.
-/

namespace MedicalChatBot

/-- JavaScript `String.prototype.trim()`: the string with leading and
trailing whitespace removed. (Lean's own `String.trim` is not
kernel-reducible, so the equivalent is defined here over the character
list.) -/
def jsTrim (s : String) : String :=
  ⟨((s.data.dropWhile Char.isWhitespace).reverse.dropWhile Char.isWhitespace).reverse⟩

/-- The closed set of analysis tags (`AnalysisType` in
`localStorageService` and the `analysisType` union in `firebaseService.ts`). -/
inductive AnalysisType where
  | imageAnalyses
  | voiceDiagnoses
  | symptomChecks
  | mentalHealthAssessments
  | dietaryAnalyses
deriving DecidableEq, Repr

/-- `AnalysisRecord`: one saved analysis outcome (`id`, `userId`,
`analysisType`, `timestamp`, `result`), with the result payload type `R`. -/
structure AnalysisRecord (R : Type) where
  id : String
  userId : String
  analysisType : AnalysisType
  timestamp : Nat
  result : R
deriving DecidableEq, Repr

/-- Comparator order used by the localStorage backend's sort:
`(a, b) => new Date(b.timestamp).getTime() - new Date(a.timestamp).getTime()`
places `a` before `b` exactly when `a.timestamp >= b.timestamp`. -/
def tsGe {R : Type} (a b : AnalysisRecord R) : Prop :=
  b.timestamp ≤ a.timestamp

instance {R : Type} : DecidableRel (@tsGe R) :=
  fun a b => Nat.decLe b.timestamp a.timestamp

instance {R : Type} : IsTotal (AnalysisRecord R) tsGe :=
  ⟨fun a b => Nat.le_total b.timestamp a.timestamp⟩

instance {R : Type} : IsTrans (AnalysisRecord R) tsGe :=
  ⟨fun _ _ _ h1 h2 => Nat.le_trans h2 h1⟩

namespace LocalStorageService

/-- The browser `localStorage` key-value area: keys to stored record lists.
(The stored value is the `JSON.stringify` of the list; `JSON.parse` of it
returns an equal list, so the serialized string is modelled by the list.) -/
abbrev LocalStore (R : Type) := String → Option (List (AnalysisRecord R))

/-- Storage with no keys set. -/
def LocalStore.empty {R : Type} : LocalStore R := fun _ => none

/-- `localStorage.setItem(k, v)`. -/
def LocalStore.setItem {R : Type} (s : LocalStore R) (k : String)
    (v : List (AnalysisRecord R)) : LocalStore R :=
  fun q => if q = k then some v else s q

/-- The execution environment of the localStorage service: whether `window`
is defined, whether a read inside the `try` of `getUserAnalyses` throws, and
whether (and with what message) `localStorage.setItem` throws. -/
structure LSEnv where
  windowDefined : Bool
  readFault : Bool
  writeFault : Option String

/-- `const getStorageKey = (userId) => userAnalyses_ + userId`. -/
def getStorageKey (userId : String) : String :=
  "userAnalyses_" ++ userId

/-- `getUserAnalyses(userId)` of the localStorage backend:
returns `[]` when `window` is undefined, when `userId` is empty or
whitespace-only, or when the read inside `try` throws; otherwise parses the
stored list (or `[]` when the key is absent) and sorts it by timestamp
descending. -/
def getUserAnalyses {R : Type} (env : LSEnv) (store : LocalStore R)
    (userId : String) : List (AnalysisRecord R) :=
  if env.windowDefined = false then []
  else if userId = "" ∨ jsTrim userId = "" then []
  else if env.readFault then []
  else
    match store (getStorageKey userId) with
    | some analyses => List.insertionSort tsGe analyses
    | none => []

/-- `saveAnalysisResult(userId, analysisType, result)` of the localStorage
backend. `newId` and `now` stand for the id string and timestamp generated at
save time. Returns the updated storage, or the thrown error's message. -/
def saveAnalysisResult {R : Type} (env : LSEnv) (store : LocalStore R)
    (userId : String) (analysisType : AnalysisType) (result : R)
    (newId : String) (now : Nat) : Except String (LocalStore R) :=
  if env.windowDefined = false then .ok store
  else if userId = "" ∨ jsTrim userId = "" then
    .error "User ID is required to save analysis."
  else
    let existingAnalyses := getUserAnalyses env store userId
    let newAnalysis : AnalysisRecord R :=
      ⟨newId, userId, analysisType, now, result⟩
    match env.writeFault with
    | some m =>
      .error ("Failed to save analysis result to localStorage: " ++ m)
    | none =>
      .ok (store.setItem (getStorageKey userId) (newAnalysis :: existingAnalyses))

end LocalStorageService

namespace Firestore

/-- One document of the `analyses` collection
(`{userId, analysisType, timestamp, result}` plus its document id). -/
structure FsDoc (R : Type) where
  docId : String
  userId : String
  analysisType : AnalysisType
  timestamp : Nat
  result : R
deriving DecidableEq, Repr

/-- The Firestore backend state: the `analyses` collection's documents in the
order the backend returns them for an unordered query, plus fault flags for
`getDocs` and `addDoc` (the messages of the errors they would throw). -/
structure FirestoreState (R : Type) where
  docs : List (FsDoc R)
  readFault : Option String
  writeFault : Option String

/-- `getUserAnalyses(userId)` of the Firestore backend: `getDocs` of the
query `where userId == userId`, mapping each document to an
`AnalysisRecord`. The `catch` clause logs and rethrows, so a backend read
fault propagates. No ordering clause is applied to the query. -/
def getUserAnalyses {R : Type} (st : FirestoreState R) (userId : String) :
    Except String (List (AnalysisRecord R)) :=
  match st.readFault with
  | some m => .error m
  | none =>
    .ok (((st.docs.filter (fun d => d.userId = userId)).map
      (fun d => ⟨d.docId, d.userId, d.analysisType, d.timestamp, d.result⟩)))

/-- `saveAnalysis(userId, analysisType, result)` of the Firestore backend:
`addDoc` appends one new document (no validation of `userId`). The `catch`
clause logs and rethrows, so a backend write fault propagates. -/
def saveAnalysis {R : Type} (st : FirestoreState R) (userId : String)
    (analysisType : AnalysisType) (result : R) (newDocId : String)
    (now : Nat) : Except String (FirestoreState R) :=
  match st.writeFault with
  | some m => .error m
  | none =>
    .ok { st with docs := st.docs ++ [⟨newDocId, userId, analysisType, now, result⟩] }

end Firestore

namespace Flows

/-- A JavaScript string field that may be absent is falsy when absent or
empty (`!s`). -/
def strFalsy (s : Option String) : Bool :=
  match s with
  | none => true
  | some s => s = ""

/-- `x ?? d` on a possibly-missing field (only `null`/`undefined` select the
default; an empty present string stays). -/
def nullish {A : Type} (x : Option A) (d : A) : A :=
  x.getD d

/-- `s || d` on a possibly-missing string field (absent or empty selects the
default). -/
def orDefaultStr (s : Option String) (d : String) : String :=
  match s with
  | none => d
  | some s => if s = "" then d else s

/-- `xs && xs.length > 0 ? xs : d` (also covering
`Array.isArray(xs) && xs.length > 0 ? xs : d` when the present field is an
array): keep a present non-empty list, otherwise the default. -/
def nonEmptyOr {A : Type} (xs : Option (List A)) (d : List A) : List A :=
  match xs with
  | none => d
  | some l => if l.isEmpty then d else l

/-- The `IndianMedicalRecommendationSchema` entries
(`doctorName`, `hospitalName`, optional `phoneNumber`, `specialty`). -/
structure IndianMedicalRecommendation where
  doctorName : String
  hospitalName : String
  phoneNumber : Option String
  specialty : String
deriving DecidableEq, Repr

/-- The `urgency` enum of `CheckSymptomsOutputSchema`. -/
inductive Urgency where
  | low
  | medium
  | high
deriving DecidableEq, Repr

/-- The symptom-checker flow's AI output as received: every field may be
absent (the normalization code in `checkSymptomsFlow` is defensive about
each one). -/
structure CheckSymptomsRawOutput where
  potentialConditions : Option (List String)
  urgency : Option Urgency
  urgencyReasoning : Option String
  suggestedNextSteps : Option (List String)
  doctorRecommendations : Option (List String)
  indianMedicalRecommendations : Option (List IndianMedicalRecommendation)
deriving DecidableEq, Repr

/-- The first back-fill block of `checkSymptomsFlow`: when any expected field
is falsy, back-fill each missing field with its default
(`doctorRecommendations` with `["General Practitioner"]` unless present and
non-empty). -/
def checkSymptomsBackfill (o : CheckSymptomsRawOutput) : CheckSymptomsRawOutput :=
  if o.potentialConditions.isNone || o.urgency.isNone
      || strFalsy o.urgencyReasoning || o.suggestedNextSteps.isNone
      || o.doctorRecommendations.isNone then
    { o with potentialConditions := some (nullish o.potentialConditions []), urgency := some (nullish o.urgency .low), urgencyReasoning := some (nullish o.urgencyReasoning "Could not determine urgency reasoning."), suggestedNextSteps := some (nullish o.suggestedNextSteps ["Consult a healthcare professional."]), doctorRecommendations := some (nonEmptyOr o.doctorRecommendations ["General Practitioner"]) }
  else o

/-- `if (output.doctorRecommendations.length === 0) { ... }` of
`checkSymptomsFlow`. -/
def checkSymptomsEnsureDoctor (o : CheckSymptomsRawOutput) : CheckSymptomsRawOutput :=
  if (nullish o.doctorRecommendations []).isEmpty then
    { o with doctorRecommendations := some ["General Practitioner"] }
  else o

/-- `output.indianMedicalRecommendations = output.indianMedicalRecommendations ?? []`. -/
def checkSymptomsFillIndian (o : CheckSymptomsRawOutput) : CheckSymptomsRawOutput :=
  { o with indianMedicalRecommendations := some (nullish o.indianMedicalRecommendations []) }

/-- The full normalization `checkSymptomsFlow` applies to a non-null AI
output, in source order. -/
def normalizeCheckSymptomsOutput (o : CheckSymptomsRawOutput) : CheckSymptomsRawOutput :=
  checkSymptomsFillIndian (checkSymptomsEnsureDoctor (checkSymptomsBackfill o))

/-- `checkSymptomsFlow` beyond the prompt call: the model's output is either
absent (`!output`, throwing) or normalized and returned. -/
def checkSymptomsFlow (output : Option CheckSymptomsRawOutput) :
    Except String CheckSymptomsRawOutput :=
  match output with
  | none => .error "Received null output from the AI model."
  | some o => .ok (normalizeCheckSymptomsOutput o)

/-- The mental-health flow's AI output as received. -/
structure AssessMentalHealthRawOutput where
  assessment : Option String
  recommendations : Option (List String)
  resourceSuggestions : Option (List String)
  crisisWarning : Option String
  indianMedicalRecommendations : Option (List IndianMedicalRecommendation)
deriving DecidableEq, Repr

/-- The first back-fill block of `assessMentalHealthFlow`
(`output.crisisWarning = output.crisisWarning` is the identity). -/
def assessMentalHealthBackfill (o : AssessMentalHealthRawOutput) :
    AssessMentalHealthRawOutput :=
  if strFalsy o.assessment || o.recommendations.isNone
      || o.resourceSuggestions.isNone then
    { o with assessment := some (nullish o.assessment "Could not generate a preliminary assessment."), recommendations := some (nullish o.recommendations ["Consider practicing self-care and reaching out for support."]), resourceSuggestions := some (nonEmptyOr o.resourceSuggestions ["General Practitioner", "Mental Health Professional"]) }
  else o

/-- `if (output.resourceSuggestions.length === 0) { ... }` of
`assessMentalHealthFlow`. -/
def assessMentalHealthEnsureResources (o : AssessMentalHealthRawOutput) :
    AssessMentalHealthRawOutput :=
  if (nullish o.resourceSuggestions []).isEmpty then
    { o with resourceSuggestions := some ["General Practitioner", "Mental Health Professional"] }
  else o

/-- `output.indianMedicalRecommendations ?? []` of `assessMentalHealthFlow`. -/
def assessMentalHealthFillIndian (o : AssessMentalHealthRawOutput) :
    AssessMentalHealthRawOutput :=
  { o with indianMedicalRecommendations := some (nullish o.indianMedicalRecommendations []) }

/-- The full normalization `assessMentalHealthFlow` applies to a non-null AI
output, in source order. -/
def normalizeAssessMentalHealthOutput (o : AssessMentalHealthRawOutput) :
    AssessMentalHealthRawOutput :=
  assessMentalHealthFillIndian (assessMentalHealthEnsureResources
    (assessMentalHealthBackfill o))

/-- `assessMentalHealthFlow` beyond the prompt call. -/
def assessMentalHealthFlow (output : Option AssessMentalHealthRawOutput) :
    Except String AssessMentalHealthRawOutput :=
  match output with
  | none => .error "Received null output from the AI model."
  | some o => .ok (normalizeAssessMentalHealthOutput o)

/-- The image-analysis flow's AI output as received. -/
structure AnalyzeImageRawOutput where
  assessment : Option String
  recommendations : Option String
  doctorRecommendations : Option (List String)
  indianMedicalRecommendations : Option (List IndianMedicalRecommendation)
deriving DecidableEq, Repr

/-- The first back-fill block of `analyzeImageFlow` (note the `||` defaults on
the two text fields, so empty present strings are replaced too, and the
`Array.isArray` test on `doctorRecommendations`, absent meaning not an
array). -/
def analyzeImageBackfill (o : AnalyzeImageRawOutput) : AnalyzeImageRawOutput :=
  if strFalsy o.assessment || strFalsy o.recommendations
      || o.doctorRecommendations.isNone then
    { o with assessment := some (orDefaultStr o.assessment "Assessment unavailable."), recommendations := some (orDefaultStr o.recommendations "Consult a healthcare professional."), doctorRecommendations := some (nonEmptyOr o.doctorRecommendations ["General Practitioner"]) }
  else o

/-- `if (output.doctorRecommendations.length === 0) { ... }` of
`analyzeImageFlow`. -/
def analyzeImageEnsureDoctor (o : AnalyzeImageRawOutput) : AnalyzeImageRawOutput :=
  if (nullish o.doctorRecommendations []).isEmpty then
    { o with doctorRecommendations := some ["General Practitioner"] }
  else o

/-- `output.indianMedicalRecommendations ?? []` of `analyzeImageFlow`. -/
def analyzeImageFillIndian (o : AnalyzeImageRawOutput) : AnalyzeImageRawOutput :=
  { o with indianMedicalRecommendations := some (nullish o.indianMedicalRecommendations []) }

/-- The full normalization `analyzeImageFlow` applies to a non-null AI output,
in source order. -/
def normalizeAnalyzeImageOutput (o : AnalyzeImageRawOutput) : AnalyzeImageRawOutput :=
  analyzeImageFillIndian (analyzeImageEnsureDoctor (analyzeImageBackfill o))

/-- `analyzeImageFlow` beyond the prompt call. -/
def analyzeImageFlow (output : Option AnalyzeImageRawOutput) :
    Except String AnalyzeImageRawOutput :=
  match output with
  | none => .error "Received null output from the AI model."
  | some o => .ok (normalizeAnalyzeImageOutput o)

/-- The dietary-analysis flow's AI output as received. -/
structure AnalyzeDietRawOutput where
  nutritionalBreakdown : Option String
  healthObservations : Option (List String)
  improvementSuggestions : Option (List String)
  professionalRecommendation : Option String
  indianMedicalRecommendations : Option (List IndianMedicalRecommendation)
deriving DecidableEq, Repr

/-- The first back-fill block of `analyzeDietFlow`. -/
def analyzeDietBackfill (o : AnalyzeDietRawOutput) : AnalyzeDietRawOutput :=
  if strFalsy o.nutritionalBreakdown || o.healthObservations.isNone
      || o.improvementSuggestions.isNone
      || strFalsy o.professionalRecommendation then
    { o with nutritionalBreakdown := some (nullish o.nutritionalBreakdown "Could not estimate nutritional breakdown."), healthObservations := some (nullish o.healthObservations []), improvementSuggestions := some (nullish o.improvementSuggestions []), professionalRecommendation := some (nullish o.professionalRecommendation "Consult a registered dietitian or healthcare provider for personalized advice.") }
  else o

/-- `if (!output.professionalRecommendation) { ... }` of `analyzeDietFlow`
(truthiness: still replaces a present-but-empty string). -/
def analyzeDietEnsureRecommendation (o : AnalyzeDietRawOutput) : AnalyzeDietRawOutput :=
  if strFalsy o.professionalRecommendation then
    { o with professionalRecommendation := some "Consult a registered dietitian or healthcare provider for personalized advice." }
  else o

/-- `output.indianMedicalRecommendations ?? []` of `analyzeDietFlow`. -/
def analyzeDietFillIndian (o : AnalyzeDietRawOutput) : AnalyzeDietRawOutput :=
  { o with indianMedicalRecommendations := some (nullish o.indianMedicalRecommendations []) }

/-- The full normalization `analyzeDietFlow` applies to a non-null AI output,
in source order. -/
def normalizeAnalyzeDietOutput (o : AnalyzeDietRawOutput) : AnalyzeDietRawOutput :=
  analyzeDietFillIndian (analyzeDietEnsureRecommendation (analyzeDietBackfill o))

/-- `analyzeDietFlow` beyond the prompt call. -/
def analyzeDietFlow (output : Option AnalyzeDietRawOutput) :
    Except String AnalyzeDietRawOutput :=
  match output with
  | none => .error "Received null output from the AI model."
  | some o => .ok (normalizeAnalyzeDietOutput o)

/-- The voice-diagnosis flow's AI output as received. -/
structure VoiceDiagnosisRawOutput where
  potentialConditions : Option (List String)
  clarifyingQuestions : Option (List String)
  doctorRecommendations : Option (List String)
  indianMedicalRecommendations : Option (List IndianMedicalRecommendation)
deriving DecidableEq, Repr

/-- The first back-fill block of `voiceDiagnosisFlow` (the `Array.isArray`
tests; absent means not an array). -/
def voiceDiagnosisBackfill (o : VoiceDiagnosisRawOutput) : VoiceDiagnosisRawOutput :=
  if o.potentialConditions.isNone || o.clarifyingQuestions.isNone
      || o.doctorRecommendations.isNone then
    { o with potentialConditions := some (nullish o.potentialConditions []), clarifyingQuestions := some (nullish o.clarifyingQuestions ["Could not generate questions."]), doctorRecommendations := some (nonEmptyOr o.doctorRecommendations ["General Practitioner"]) }
  else o

/-- `if (output.doctorRecommendations.length === 0) { ... }` of
`voiceDiagnosisFlow`. -/
def voiceDiagnosisEnsureDoctor (o : VoiceDiagnosisRawOutput) : VoiceDiagnosisRawOutput :=
  if (nullish o.doctorRecommendations []).isEmpty then
    { o with doctorRecommendations := some ["General Practitioner"] }
  else o

/-- `output.indianMedicalRecommendations ?? []` of `voiceDiagnosisFlow`. -/
def voiceDiagnosisFillIndian (o : VoiceDiagnosisRawOutput) : VoiceDiagnosisRawOutput :=
  { o with indianMedicalRecommendations := some (nullish o.indianMedicalRecommendations []) }

/-- The full normalization `voiceDiagnosisFlow` applies to a non-null AI
output, in source order. -/
def normalizeVoiceDiagnosisOutput (o : VoiceDiagnosisRawOutput) : VoiceDiagnosisRawOutput :=
  voiceDiagnosisFillIndian (voiceDiagnosisEnsureDoctor (voiceDiagnosisBackfill o))

/-- `voiceDiagnosisFlow`: when neither an audio recording nor a text
description is present the flow returns a fixed response without calling the
model; otherwise the model's output is either absent (throwing) or normalized
and returned. `hasAudio`/`hasDescription` record which inputs are present. -/
def voiceDiagnosisFlow (hasAudio hasDescription : Bool)
    (output : Option VoiceDiagnosisRawOutput) :
    Except String VoiceDiagnosisRawOutput :=
  if hasAudio = false ∧ hasDescription = false then
    .ok ⟨some [], some ["No symptoms were provided to analyze."],
      some ["General Practitioner"], some []⟩
  else
    match output with
    | none => .error "Received null output from the AI model."
    | some o => .ok (normalizeVoiceDiagnosisOutput o)

end Flows

/-- One `save` invocation's arguments, together with the id string and the
timestamp the implementation generates for it. -/
structure SaveOp (R : Type) where
  userId : String
  analysisType : AnalysisType
  result : R
  newId : String
  now : Nat

namespace LocalStorageService

/-- Run one save against the store, leaving the store unchanged when the save
throws. -/
def runSave {R : Type} (env : LSEnv) (store : LocalStore R) (op : SaveOp R) :
    LocalStore R :=
  match saveAnalysisResult env store op.userId op.analysisType op.result
      op.newId op.now with
  | .ok s => s
  | .error _ => store

/-- Run a sequence of saves in order. -/
def runSaves {R : Type} (env : LSEnv) (ops : List (SaveOp R))
    (store : LocalStore R) : LocalStore R :=
  ops.foldl (runSave env) store

/-- The read half of `saveAnalysisResult`'s read-modify-write:
`await getUserAnalyses(userId)`. -/
def lsReadStep {R : Type} (env : LSEnv) (store : LocalStore R) (op : SaveOp R) :
    List (AnalysisRecord R) :=
  getUserAnalyses env store op.userId

/-- The write half of `saveAnalysisResult`'s read-modify-write:
`localStorage.setItem(storageKey, JSON.stringify([newAnalysis, ...existing]))`,
where `captured` is the list the read step captured earlier. -/
def lsWriteStep {R : Type} (store : LocalStore R) (op : SaveOp R)
    (captured : List (AnalysisRecord R)) : LocalStore R :=
  store.setItem (getStorageKey op.userId)
    (⟨op.newId, op.userId, op.analysisType, op.now, op.result⟩ :: captured)

/-- Two concurrent `saveAnalysisResult` calls whose steps interleave as
read₁, read₂, write₁, write₂ — an interleaving the `await` boundary between
the read and the write permits. -/
def interleavedSaves {R : Type} (env : LSEnv) (store : LocalStore R)
    (op1 op2 : SaveOp R) : LocalStore R :=
  let e1 := lsReadStep env store op1
  let e2 := lsReadStep env store op2
  lsWriteStep (lsWriteStep store op1 e1) op2 e2

end LocalStorageService

namespace Firestore

/-- Run one Firestore save, leaving the state unchanged when it throws. -/
def runSave {R : Type} (st : FirestoreState R) (op : SaveOp R) :
    FirestoreState R :=
  match saveAnalysis st op.userId op.analysisType op.result op.newId op.now with
  | .ok st2 => st2
  | .error _ => st

/-- Run a sequence of Firestore saves in order. -/
def runSaves {R : Type} (ops : List (SaveOp R)) (st : FirestoreState R) :
    FirestoreState R :=
  ops.foldl runSave st

end Firestore

/-! Helper lemmas about the store embeddings. -/

namespace LocalStorageService

theorem getStorageKey_injective {a b : String}
    (h : getStorageKey a = getStorageKey b) : a = b := by
  have h2 := congrArg String.data h
  simp [getStorageKey, String.data_append] at h2
  exact String.ext h2

/-- Any record the localStorage backend lists is present in the stored list
under the user's storage key. -/
theorem mem_of_mem_getUserAnalyses {R : Type} {env : LSEnv}
    {store : LocalStore R} {userId : String} {rec : AnalysisRecord R}
    (h : rec ∈ getUserAnalyses env store userId) :
    rec ∈ (store (getStorageKey userId)).getD [] := by
  unfold getUserAnalyses at h
  split at h
  · simp at h
  · split at h
    · simp at h
    · split at h
      · simp at h
      · rcases hst : store (getStorageKey userId) with _ | analyses
        · simp [hst] at h
        · simp only [hst] at h
          rw [List.mem_insertionSort] at h
          simp [hst, h]

/-- The key invariant of the localStorage log: every record stored under a
user's key carries that user's id. -/
def KeyInv {R : Type} (store : LocalStore R) : Prop :=
  ∀ (u : String) (rec : AnalysisRecord R),
    rec ∈ (store (getStorageKey u)).getD [] → rec.userId = u

theorem keyInv_empty {R : Type} : KeyInv (LocalStore.empty : LocalStore R) := by
  intro u rec h
  simp [LocalStore.empty] at h

theorem keyInv_runSave {R : Type} {env : LSEnv} {store : LocalStore R}
    (hinv : KeyInv store) (op : SaveOp R) : KeyInv (runSave env store op) := by
  intro u rec h
  unfold runSave at h
  rcases hsv : saveAnalysisResult env store op.userId op.analysisType op.result
      op.newId op.now with e | s
  · simp only [hsv] at h
    exact hinv u rec h
  · simp only [hsv] at h
    simp only [saveAnalysisResult] at hsv
    split at hsv
    · cases hsv
      exact hinv u rec h
    · split at hsv
      · cases hsv
      · rcases hwf : env.writeFault with _ | m
        · simp only [hwf] at hsv
          cases hsv
          rw [LocalStore.setItem] at h
          by_cases hk : getStorageKey u = getStorageKey op.userId
          · rw [if_pos hk] at h
            have hu : u = op.userId := getStorageKey_injective hk
            rcases List.mem_cons.mp (by simpa using h) with h1 | h1
            · rw [h1, hu]
            · rw [hu]
              exact hinv op.userId rec (mem_of_mem_getUserAnalyses h1)
          · rw [if_neg hk] at h
            exact hinv u rec h
        · rw [hwf] at hsv
          cases hsv

theorem keyInv_runSaves {R : Type} {env : LSEnv} (ops : List (SaveOp R)) :
    ∀ {store : LocalStore R}, KeyInv store → KeyInv (runSaves env ops store) := by
  induction ops with
  | nil => intro store h; exact h
  | cons op rest ih =>
    intro store h
    exact ih (keyInv_runSave h op)

end LocalStorageService

namespace LocalStorageService

/-- Reading back the key just written, in a browser environment with a valid
user and no read fault, yields the written list sorted. -/
theorem getUserAnalyses_setItem_self {R : Type} {env : LSEnv}
    {store : LocalStore R} {userId : String} (hw : env.windowDefined = true)
    (hv : ¬(userId = "" ∨ jsTrim userId = "")) (hr : env.readFault = false)
    (L : List (AnalysisRecord R)) :
    getUserAnalyses env (store.setItem (getStorageKey userId) L) userId =
      List.insertionSort tsGe L := by
  unfold getUserAnalyses
  rw [if_neg (by simp [hw]), if_neg hv, if_neg (by simp [hr])]
  simp [LocalStore.setItem]

/-- A successful `saveAnalysisResult` in a browser environment means the
userId was valid, the storage medium did not fault, and the store now maps
the user's key to the new record prepended to the previously listed ones. -/
theorem saveAnalysisResult_ok_eq {R : Type} {env : LSEnv}
    {store : LocalStore R} {userId : String} {t : AnalysisType} {r : R}
    {newId : String} {now : Nat} {s2 : LocalStore R}
    (hw : env.windowDefined = true)
    (hok : saveAnalysisResult env store userId t r newId now = .ok s2) :
    ¬(userId = "" ∨ jsTrim userId = "") ∧ env.writeFault = none ∧
      s2 = store.setItem (getStorageKey userId)
        (⟨newId, userId, t, now, r⟩ :: getUserAnalyses env store userId) := by
  unfold saveAnalysisResult at hok
  rw [if_neg (by simp [hw])] at hok
  by_cases hv : userId = "" ∨ jsTrim userId = ""
  · rw [if_pos hv] at hok
    cases hok
  · rw [if_neg hv] at hok
    rcases hwf : env.writeFault with _ | m
    · simp only [hwf] at hok
      refine ⟨hv, rfl, ?_⟩
      injection hok with h
      exact h.symm
    · simp only [hwf] at hok
      cases hok

end LocalStorageService

namespace Firestore

/-- A successful Firestore `saveAnalysis` appends exactly one document. -/
theorem saveAnalysis_ok_eq {R : Type} {st : FirestoreState R} {userId : String}
    {t : AnalysisType} {r : R} {newDocId : String} {now : Nat}
    {st2 : FirestoreState R}
    (hok : saveAnalysis st userId t r newDocId now = .ok st2) :
    st.writeFault = none ∧
      st2 = { st with docs := st.docs ++ [⟨newDocId, userId, t, now, r⟩] } := by
  unfold saveAnalysis at hok
  rcases hwf : st.writeFault with _ | m
  · simp only [hwf] at hok
    refine ⟨rfl, ?_⟩
    injection hok with h
    exact h.symm
  · simp only [hwf] at hok
    cases hok

/-- A successful Firestore `getUserAnalyses` is the filtered, mapped document
list. -/
theorem getUserAnalyses_ok_eq {R : Type} {st : FirestoreState R}
    {userId : String} {l : List (AnalysisRecord R)}
    (h : getUserAnalyses st userId = .ok l) :
    st.readFault = none ∧
      l = (st.docs.filter (fun d => d.userId = userId)).map
        (fun d => ⟨d.docId, d.userId, d.analysisType, d.timestamp, d.result⟩) := by
  unfold getUserAnalyses at h
  rcases hrf : st.readFault with _ | m
  · simp only [hrf] at h
    refine ⟨rfl, ?_⟩
    injection h with h2
    exact h2.symm
  · simp only [hrf] at h
    cases h

end Firestore

/-! Claim theorems. -/

/-- C3: in the localStorage backend, a successful
`save(userId, analysisType, result)` followed by `list(userId)` (in a browser
environment with no read fault) yields a record whose `result` equals the
saved result and whose `analysisType` equals the saved type. -/
theorem C3_save_list_roundtrip {R : Type} (env : LocalStorageService.LSEnv)
    (store : LocalStorageService.LocalStore R) (userId : String)
    (t : AnalysisType) (r : R) (newId : String) (now : Nat)
    (s2 : LocalStorageService.LocalStore R)
    (hw : env.windowDefined = true) (hr : env.readFault = false)
    (hok : LocalStorageService.saveAnalysisResult env store userId t r newId now = .ok s2) :
    ∃ rec ∈ LocalStorageService.getUserAnalyses env s2 userId,
      rec.result = r ∧ rec.analysisType = t := by
  obtain ⟨hv, _, hs2⟩ := LocalStorageService.saveAnalysisResult_ok_eq hw hok
  subst hs2
  rw [LocalStorageService.getUserAnalyses_setItem_self hw hv hr]
  refine ⟨⟨newId, userId, t, now, r⟩, ?_, rfl, rfl⟩
  rw [List.mem_insertionSort]
  exact List.mem_cons_self _ _

/-- C3 (witness): a concrete save followed by list. -/
theorem C3_witness :
    ∃ rec ∈ LocalStorageService.getUserAnalyses ⟨true, false, none⟩
      ((LocalStorageService.LocalStore.empty : LocalStorageService.LocalStore Nat).setItem
        (LocalStorageService.getStorageKey "u1") [⟨"a", "u1", .symptomChecks, 5, 7⟩]) "u1",
      rec.result = 7 ∧ rec.analysisType = .symptomChecks :=
  C3_save_list_roundtrip ⟨true, false, none⟩ LocalStorageService.LocalStore.empty
    "u1" .symptomChecks 7 "a" 5 _ rfl rfl rfl

/-- C1 (amended): in the localStorage backend, `list(userId)` is sorted in
non-increasing timestamp order: for all records `a` before `b` in the result,
`a.timestamp >= b.timestamp`. (The Firestore backend applies no ordering —
see the counterexample.) -/
theorem C1_localStorage_list_sorted {R : Type} :
    ∀ (env : LocalStorageService.LSEnv) (store : LocalStorageService.LocalStore R)
      (userId : String),
      (LocalStorageService.getUserAnalyses env store userId).Pairwise tsGe := by
  intro env store userId
  unfold LocalStorageService.getUserAnalyses
  split
  · exact List.Pairwise.nil
  · split
    · exact List.Pairwise.nil
    · split
      · exact List.Pairwise.nil
      · rcases hst : store (LocalStorageService.getStorageKey userId) with _ | analyses <;>
          simp only [hst]
        · exact List.Pairwise.nil
        · exact List.sorted_insertionSort tsGe analyses

/-- A Firestore state holding two documents for `"u1"` in increasing
timestamp order (the snapshot order of an unordered query). -/
def fsPairC1 : Firestore.FirestoreState Nat :=
  ⟨[⟨"d1", "u1", .imageAnalyses, 1, 0⟩, ⟨"d2", "u1", .symptomChecks, 2, 0⟩], none, none⟩

/-- C1 (counterexample): the Firestore backend's `getUserAnalyses` returns the
matching documents in snapshot order without sorting, so the result can have
a record with a smaller timestamp before one with a larger timestamp,
violating the claimed non-increasing order. -/
theorem C1_firestore_list_unsorted :
    Firestore.getUserAnalyses fsPairC1 "u1" =
      .ok [⟨"d1", "u1", .imageAnalyses, 1, 0⟩, ⟨"d2", "u1", .symptomChecks, 2, 0⟩]
    ∧ ¬ ([⟨"d1", "u1", .imageAnalyses, 1, 0⟩, ⟨"d2", "u1", .symptomChecks, 2, (0 : Nat)⟩] :
        List (AnalysisRecord Nat)).Pairwise tsGe := by
  constructor
  · rfl
  · decide

/-- C2 (amended): `list` returns `[]` for an empty or unknown `userId` in the
localStorage backend, and `.ok []` in the Firestore backend when no document
matches; on a backend read fault the localStorage backend degrades to `[]`
(the Firestore backend instead rethrows — see the counterexample). -/
theorem C2_list_empty_safety {R : Type} :
    (∀ (env : LocalStorageService.LSEnv) (store : LocalStorageService.LocalStore R),
        LocalStorageService.getUserAnalyses env store "" = [])
  ∧ (∀ (env : LocalStorageService.LSEnv) (store : LocalStorageService.LocalStore R)
        (userId : String),
        store (LocalStorageService.getStorageKey userId) = none →
        LocalStorageService.getUserAnalyses env store userId = [])
  ∧ (∀ (env : LocalStorageService.LSEnv) (store : LocalStorageService.LocalStore R)
        (userId : String),
        env.readFault = true →
        LocalStorageService.getUserAnalyses env store userId = [])
  ∧ (∀ (st : Firestore.FirestoreState R) (userId : String),
        st.readFault = none → (∀ d ∈ st.docs, d.userId ≠ userId) →
        Firestore.getUserAnalyses st userId = .ok []) := by
  refine ⟨?_, ?_, ?_, ?_⟩
  · intro env store
    simp [LocalStorageService.getUserAnalyses]
  · intro env store userId hst
    unfold LocalStorageService.getUserAnalyses
    split
    · rfl
    · split
      · rfl
      · split
        · rfl
        · simp [hst]
  · intro env store userId hr
    unfold LocalStorageService.getUserAnalyses
    split
    · rfl
    · split
      · rfl
      · simp [hr]
  · intro st userId hrf hnone
    unfold Firestore.getUserAnalyses
    rw [hrf]
    have hfil : st.docs.filter (fun d => d.userId = userId) = [] := by
      rw [List.filter_eq_nil_iff]
      intro d hd
      simp [hnone d hd]
    rw [hfil]
    rfl

/-- C2 (witness): concrete instances of the amended statement. -/
theorem C2_witness :
    LocalStorageService.getUserAnalyses ⟨true, false, none⟩
      (LocalStorageService.LocalStore.empty : LocalStorageService.LocalStore Nat) "nobody" = []
  ∧ LocalStorageService.getUserAnalyses ⟨true, true, none⟩
      (LocalStorageService.LocalStore.empty : LocalStorageService.LocalStore Nat) "u1" = []
  ∧ Firestore.getUserAnalyses (⟨[], none, none⟩ : Firestore.FirestoreState Nat) "nobody" = .ok [] :=
  ⟨C2_list_empty_safety.2.1 ⟨true, false, none⟩ LocalStorageService.LocalStore.empty "nobody" rfl,
   C2_list_empty_safety.2.2.1 ⟨true, true, none⟩ LocalStorageService.LocalStore.empty "u1" rfl,
   C2_list_empty_safety.2.2.2 ⟨[], none, none⟩ "nobody" rfl (by simp)⟩

/-- A Firestore state whose read path faults. -/
def fsFaultyC2 : Firestore.FirestoreState Nat :=
  ⟨[], some "firestore unavailable", none⟩

/-- C2 (counterexample): on a backend read fault the Firestore backend's
`getUserAnalyses` rethrows the error instead of degrading to an empty
result. -/
theorem C2_firestore_read_fault_raises :
    Firestore.getUserAnalyses fsFaultyC2 "u1" = .error "firestore unavailable" := rfl

/-- C7 (counterexample): the Firestore backend's `saveAnalysis` performs no
userId validation — saving with the empty `userId` succeeds and persists a
record, instead of raising a validation error. -/
theorem C7_firestore_accepts_empty_userId :
    Firestore.saveAnalysis (⟨[], none, none⟩ : Firestore.FirestoreState Nat)
      "" .imageAnalyses 0 "d1" 5
      = .ok ⟨[⟨"d1", "", .imageAnalyses, 5, 0⟩], none, none⟩ := rfl

/-- C7 (amended): in the localStorage backend an empty or whitespace-only
`userId` makes `saveAnalysisResult` raise the fixed validation error (and
return no updated store, persisting nothing); a storage fault during save
propagates as an error whose message differs from the validation message;
the Firestore backend propagates backend faults but has no userId
validation. -/
theorem C7_save_validation_and_faults {R : Type} :
    (∀ (env : LocalStorageService.LSEnv) (store : LocalStorageService.LocalStore R)
        (userId : String) (t : AnalysisType) (r : R) (newId : String) (now : Nat),
        env.windowDefined = true → jsTrim userId = "" →
        LocalStorageService.saveAnalysisResult env store userId t r newId now =
          .error "User ID is required to save analysis.")
  ∧ (∀ (env : LocalStorageService.LSEnv) (store : LocalStorageService.LocalStore R)
        (userId : String) (t : AnalysisType) (r : R) (newId : String) (now : Nat)
        (m : String),
        env.windowDefined = true → jsTrim userId ≠ "" → env.writeFault = some m →
        LocalStorageService.saveAnalysisResult env store userId t r newId now =
          .error ("Failed to save analysis result to localStorage: " ++ m))
  ∧ (∀ m : String,
        ("Failed to save analysis result to localStorage: " ++ m) ≠
          "User ID is required to save analysis.")
  ∧ (∀ (st : Firestore.FirestoreState R) (userId : String) (t : AnalysisType)
        (r : R) (newDocId : String) (now : Nat) (m : String),
        st.writeFault = some m →
        Firestore.saveAnalysis st userId t r newDocId now = .error m) := by
  refine ⟨?_, ?_, ?_, ?_⟩
  · intro env store userId t r newId now hw hv
    simp [LocalStorageService.saveAnalysisResult, hw, hv]
  · intro env store userId t r newId now m hw hv hwf
    have hu : userId ≠ "" := by
      rintro rfl
      exact hv rfl
    simp [LocalStorageService.saveAnalysisResult, hw, hv, hu, hwf]
  · intro m h
    have hlen := congrArg String.length h
    rw [String.length_append] at hlen
    have h1 : ("Failed to save analysis result to localStorage: ").length = 48 := by decide
    have h2 : ("User ID is required to save analysis.").length = 37 := by decide
    rw [h1, h2] at hlen
    omega
  · intro st userId t r newDocId now m hwf
    simp [Firestore.saveAnalysis, hwf]

/-- C7 (witness): concrete instances of the amended statement. -/
theorem C7_witness :
    LocalStorageService.saveAnalysisResult ⟨true, false, none⟩
      (LocalStorageService.LocalStore.empty : LocalStorageService.LocalStore Nat)
      "  " .imageAnalyses 7 "a" 5 = .error "User ID is required to save analysis."
  ∧ LocalStorageService.saveAnalysisResult ⟨true, false, some "quota exceeded"⟩
      (LocalStorageService.LocalStore.empty : LocalStorageService.LocalStore Nat)
      "u1" .imageAnalyses 7 "a" 5 =
      .error ("Failed to save analysis result to localStorage: " ++ "quota exceeded")
  ∧ ("Failed to save analysis result to localStorage: " ++ "quota exceeded") ≠
      "User ID is required to save analysis."
  ∧ Firestore.saveAnalysis (⟨[], none, some "network down"⟩ : Firestore.FirestoreState Nat)
      "u1" .imageAnalyses 7 "d1" 5 = .error "network down" :=
  ⟨(@C7_save_validation_and_faults Nat).1 ⟨true, false, none⟩
      LocalStorageService.LocalStore.empty "  " .imageAnalyses 7 "a" 5 rfl (by decide),
   (@C7_save_validation_and_faults Nat).2.1 ⟨true, false, some "quota exceeded"⟩
      LocalStorageService.LocalStore.empty "u1" .imageAnalyses 7 "a" 5 "quota exceeded"
      rfl (by decide) rfl,
   (@C7_save_validation_and_faults Nat).2.2.1 "quota exceeded",
   (@C7_save_validation_and_faults Nat).2.2.2 ⟨[], none, some "network down"⟩
      "u1" .imageAnalyses 7 "d1" 5 "network down" rfl⟩

namespace Flows

set_option maxHeartbeats 1600000 in
/-- The symptom-checker normalization is idempotent. -/
theorem checkSymptoms_norm_idem (o : CheckSymptomsRawOutput) :
    normalizeCheckSymptomsOutput (normalizeCheckSymptomsOutput o) =
      normalizeCheckSymptomsOutput o := by
  obtain ⟨pc, u, ur, sns, dr, imr⟩ := o
  rcases pc with _ | pc <;> rcases u with _ | u <;> rcases ur with _ | ur <;>
    rcases sns with _ | sns <;> rcases dr with _ | dr <;> rcases imr with _ | imr <;>
      simp [normalizeCheckSymptomsOutput, checkSymptomsFillIndian,
        checkSymptomsEnsureDoctor, checkSymptomsBackfill, nullish, nonEmptyOr,
        strFalsy] <;>
      (split_ifs <;> simp_all)

set_option maxHeartbeats 1600000 in
/-- The mental-health normalization is idempotent. -/
theorem assessMentalHealth_norm_idem (o : AssessMentalHealthRawOutput) :
    normalizeAssessMentalHealthOutput (normalizeAssessMentalHealthOutput o) =
      normalizeAssessMentalHealthOutput o := by
  obtain ⟨a, recs, rs, cw, imr⟩ := o
  rcases a with _ | a <;> rcases recs with _ | recs <;> rcases rs with _ | rs <;>
    simp [normalizeAssessMentalHealthOutput, assessMentalHealthFillIndian,
      assessMentalHealthEnsureResources, assessMentalHealthBackfill, nullish,
      nonEmptyOr, strFalsy] <;>
    (split_ifs <;> simp_all)

set_option maxHeartbeats 1600000 in
/-- The image-analysis normalization is idempotent. -/
theorem analyzeImage_norm_idem (o : AnalyzeImageRawOutput) :
    normalizeAnalyzeImageOutput (normalizeAnalyzeImageOutput o) =
      normalizeAnalyzeImageOutput o := by
  obtain ⟨a, recs, dr, imr⟩ := o
  rcases a with _ | a <;> rcases recs with _ | recs <;> rcases dr with _ | dr <;>
    simp [normalizeAnalyzeImageOutput, analyzeImageFillIndian,
      analyzeImageEnsureDoctor, analyzeImageBackfill, nullish, nonEmptyOr,
      strFalsy, orDefaultStr] <;>
    (split_ifs <;> simp_all)

set_option maxHeartbeats 1600000 in
/-- The dietary-analysis normalization is idempotent. -/
theorem analyzeDiet_norm_idem (o : AnalyzeDietRawOutput) :
    normalizeAnalyzeDietOutput (normalizeAnalyzeDietOutput o) =
      normalizeAnalyzeDietOutput o := by
  obtain ⟨nb, ho, imps, pr, imr⟩ := o
  rcases nb with _ | nb <;> rcases ho with _ | ho <;> rcases imps with _ | imps <;>
    rcases pr with _ | pr <;>
    simp [normalizeAnalyzeDietOutput, analyzeDietFillIndian,
      analyzeDietEnsureRecommendation, analyzeDietBackfill, nullish, nonEmptyOr,
      strFalsy] <;>
    (split_ifs <;> simp_all)

set_option maxHeartbeats 1600000 in
/-- The voice-diagnosis normalization is idempotent. -/
theorem voiceDiagnosis_norm_idem (o : VoiceDiagnosisRawOutput) :
    normalizeVoiceDiagnosisOutput (normalizeVoiceDiagnosisOutput o) =
      normalizeVoiceDiagnosisOutput o := by
  obtain ⟨pc, cq, dr, imr⟩ := o
  rcases pc with _ | pc <;> rcases cq with _ | cq <;> rcases dr with _ | dr <;>
    simp [normalizeVoiceDiagnosisOutput, voiceDiagnosisFillIndian,
      voiceDiagnosisEnsureDoctor, voiceDiagnosisBackfill, nullish, nonEmptyOr,
      strFalsy] <;>
    (split_ifs <;> simp_all)

end Flows

/-- C5: each flow's default back-fill normalization is idempotent:
re-normalizing an already-normalized AI output returns it unchanged, for the
symptom-checker, mental-health, image-analysis, dietary-analysis and
voice-diagnosis flows. -/
theorem C5_normalize_idempotent :
    (∀ o, Flows.normalizeCheckSymptomsOutput (Flows.normalizeCheckSymptomsOutput o) =
        Flows.normalizeCheckSymptomsOutput o)
  ∧ (∀ o, Flows.normalizeAssessMentalHealthOutput (Flows.normalizeAssessMentalHealthOutput o) =
        Flows.normalizeAssessMentalHealthOutput o)
  ∧ (∀ o, Flows.normalizeAnalyzeImageOutput (Flows.normalizeAnalyzeImageOutput o) =
        Flows.normalizeAnalyzeImageOutput o)
  ∧ (∀ o, Flows.normalizeAnalyzeDietOutput (Flows.normalizeAnalyzeDietOutput o) =
        Flows.normalizeAnalyzeDietOutput o)
  ∧ (∀ o, Flows.normalizeVoiceDiagnosisOutput (Flows.normalizeVoiceDiagnosisOutput o) =
        Flows.normalizeVoiceDiagnosisOutput o) :=
  ⟨Flows.checkSymptoms_norm_idem, Flows.assessMentalHealth_norm_idem,
   Flows.analyzeImage_norm_idem, Flows.analyzeDiet_norm_idem,
   Flows.voiceDiagnosis_norm_idem⟩

/-- C6: cross-user isolation — every record `list(userB)` returns carries
`userId = userB`, in both backends, so a record saved via `save(userA, ...)`
(whose `userId` field is `userA`) never appears in `list(userB)` for
`userA ≠ userB`. For the localStorage backend this holds after any sequence
of saves applied to the initially empty store (the storage key derivation
`userAnalyses_ ++ userId` is injective); for the Firestore backend it holds
in any state, by the query's equality filter on `userId`. -/
theorem C6_cross_user_isolation {R : Type} :
    (∀ (env : LocalStorageService.LSEnv) (ops : List (SaveOp R)) (userB : String)
        (rec : AnalysisRecord R),
        rec ∈ LocalStorageService.getUserAnalyses env
          (LocalStorageService.runSaves env ops LocalStorageService.LocalStore.empty) userB →
        rec.userId = userB)
  ∧ (∀ (st : Firestore.FirestoreState R) (userB : String)
        (l : List (AnalysisRecord R)) (rec : AnalysisRecord R),
        Firestore.getUserAnalyses st userB = .ok l → rec ∈ l →
        rec.userId = userB) := by
  constructor
  · intro env ops userB rec hmem
    exact (LocalStorageService.keyInv_runSaves ops LocalStorageService.keyInv_empty)
      userB rec (LocalStorageService.mem_of_mem_getUserAnalyses hmem)
  · intro st userB l rec hok hmem
    obtain ⟨_, hl⟩ := Firestore.getUserAnalyses_ok_eq hok
    subst hl
    obtain ⟨d, hd, rfl⟩ := List.mem_map.mp hmem
    have hdu := (List.mem_filter.mp hd).2
    simpa using hdu

/-- C6 (witness): concrete instances — the single record listed for each
user carries that user's id. -/
theorem C6_witness :
    (⟨"a", "u2", .imageAnalyses, 5, (7 : Nat)⟩ : AnalysisRecord Nat).userId = "u2"
  ∧ (⟨"d", "u3", .symptomChecks, 6, (8 : Nat)⟩ : AnalysisRecord Nat).userId = "u3" :=
  ⟨(@C6_cross_user_isolation Nat).1 ⟨true, false, none⟩
      [⟨"u2", .imageAnalyses, 7, "a", 5⟩] "u2" ⟨"a", "u2", .imageAnalyses, 5, 7⟩ (by decide),
   (@C6_cross_user_isolation Nat).2 ⟨[⟨"d", "u3", .symptomChecks, 6, 8⟩], none, none⟩
      "u3" [⟨"d", "u3", .symptomChecks, 6, 8⟩] ⟨"d", "u3", .symptomChecks, 6, 8⟩
      rfl (by decide)⟩

/-- C8 (counterexample): the localStorage backend's `saveAnalysisResult` is a
non-atomic read-modify-write (the read is behind an `await`), so two
concurrent saves for the same user may interleave as read₁, read₂, write₁,
write₂ — after which `list` returns only the second record: the first save's
record (id `"a"`) was dropped. -/
theorem C8_interleaving_drops_record :
    (LocalStorageService.getUserAnalyses ⟨true, false, none⟩
      (LocalStorageService.interleavedSaves ⟨true, false, none⟩
        (LocalStorageService.LocalStore.empty : LocalStorageService.LocalStore Nat)
        ⟨"u1", .imageAnalyses, 1, "a", 10⟩ ⟨"u1", .symptomChecks, 2, "b", 11⟩) "u1").map
      (fun rec => rec.id) = ["b"] := by decide

/-- C8 (amended): each Firestore save is one atomic `addDoc` append, so two
saves (in whichever order the two concurrent appends commit) both appear in a
subsequent `list`; in the localStorage backend two saves whose
read-modify-write cycles do not interleave both appear as well — but
interleaved cycles can drop the earlier record (see the counterexample). -/
theorem C8_append_atomicity {R : Type} :
    (∀ (env : LocalStorageService.LSEnv)
        (store s1 s2 : LocalStorageService.LocalStore R) (u : String)
        (t1 t2 : AnalysisType) (r1 r2 : R) (id1 id2 : String) (n1 n2 : Nat),
        env.windowDefined = true → env.readFault = false →
        LocalStorageService.saveAnalysisResult env store u t1 r1 id1 n1 = .ok s1 →
        LocalStorageService.saveAnalysisResult env s1 u t2 r2 id2 n2 = .ok s2 →
        (⟨id1, u, t1, n1, r1⟩ : AnalysisRecord R) ∈
            LocalStorageService.getUserAnalyses env s2 u
        ∧ (⟨id2, u, t2, n2, r2⟩ : AnalysisRecord R) ∈
            LocalStorageService.getUserAnalyses env s2 u)
  ∧ (∀ (st st1 st2 : Firestore.FirestoreState R) (u : String)
        (t1 t2 : AnalysisType) (r1 r2 : R) (d1 d2 : String) (n1 n2 : Nat)
        (l : List (AnalysisRecord R)),
        Firestore.saveAnalysis st u t1 r1 d1 n1 = .ok st1 →
        Firestore.saveAnalysis st1 u t2 r2 d2 n2 = .ok st2 →
        Firestore.getUserAnalyses st2 u = .ok l →
        (⟨d1, u, t1, n1, r1⟩ : AnalysisRecord R) ∈ l
        ∧ (⟨d2, u, t2, n2, r2⟩ : AnalysisRecord R) ∈ l) := by
  constructor
  · intro env store s1 s2 u t1 t2 r1 r2 id1 id2 n1 n2 hw hr hok1 hok2
    obtain ⟨hv, _, hs1⟩ := LocalStorageService.saveAnalysisResult_ok_eq hw hok1
    subst hs1
    obtain ⟨_, _, hs2⟩ := LocalStorageService.saveAnalysisResult_ok_eq hw hok2
    subst hs2
    rw [LocalStorageService.getUserAnalyses_setItem_self hw hv hr]
    constructor
    · rw [List.mem_insertionSort]
      apply List.mem_cons_of_mem
      rw [LocalStorageService.getUserAnalyses_setItem_self hw hv hr]
      rw [List.mem_insertionSort]
      exact List.mem_cons_self _ _
    · rw [List.mem_insertionSort]
      exact List.mem_cons_self _ _
  · intro st st1 st2 u t1 t2 r1 r2 d1 d2 n1 n2 l hok1 hok2 hl
    obtain ⟨_, hst1⟩ := Firestore.saveAnalysis_ok_eq hok1
    subst hst1
    obtain ⟨_, hst2⟩ := Firestore.saveAnalysis_ok_eq hok2
    subst hst2
    obtain ⟨_, hleq⟩ := Firestore.getUserAnalyses_ok_eq hl
    subst hleq
    constructor
    · exact List.mem_map.mpr ⟨⟨d1, u, t1, n1, r1⟩,
        List.mem_filter.mpr ⟨by simp, by simp⟩, rfl⟩
    · exact List.mem_map.mpr ⟨⟨d2, u, t2, n2, r2⟩,
        List.mem_filter.mpr ⟨by simp, by simp⟩, rfl⟩

/-- C8 (witness): two concrete sequential saves in each backend, both
records present in the subsequent list. -/
theorem C8_witness :
    ((⟨"a", "u1", .imageAnalyses, 10, (1 : Nat)⟩ : AnalysisRecord Nat) ∈
        LocalStorageService.getUserAnalyses ⟨true, false, none⟩
          (((LocalStorageService.LocalStore.empty : LocalStorageService.LocalStore Nat).setItem
              (LocalStorageService.getStorageKey "u1") [⟨"a", "u1", .imageAnalyses, 10, 1⟩]).setItem
            (LocalStorageService.getStorageKey "u1")
            [⟨"b", "u1", .symptomChecks, 11, 2⟩, ⟨"a", "u1", .imageAnalyses, 10, 1⟩]) "u1"
      ∧ (⟨"b", "u1", .symptomChecks, 11, (2 : Nat)⟩ : AnalysisRecord Nat) ∈
        LocalStorageService.getUserAnalyses ⟨true, false, none⟩
          (((LocalStorageService.LocalStore.empty : LocalStorageService.LocalStore Nat).setItem
              (LocalStorageService.getStorageKey "u1") [⟨"a", "u1", .imageAnalyses, 10, 1⟩]).setItem
            (LocalStorageService.getStorageKey "u1")
            [⟨"b", "u1", .symptomChecks, 11, 2⟩, ⟨"a", "u1", .imageAnalyses, 10, 1⟩]) "u1")
  ∧ ((⟨"d1", "u1", .imageAnalyses, 10, (1 : Nat)⟩ : AnalysisRecord Nat) ∈
        [⟨"d1", "u1", .imageAnalyses, 10, 1⟩, ⟨"d2", "u1", .symptomChecks, 11, (2 : Nat)⟩]
      ∧ (⟨"d2", "u1", .symptomChecks, 11, (2 : Nat)⟩ : AnalysisRecord Nat) ∈
        [⟨"d1", "u1", .imageAnalyses, 10, 1⟩, ⟨"d2", "u1", .symptomChecks, 11, (2 : Nat)⟩]) :=
  ⟨(@C8_append_atomicity Nat).1 ⟨true, false, none⟩ LocalStorageService.LocalStore.empty _ _
      "u1" .imageAnalyses .symptomChecks 1 2 "a" "b" 10 11 rfl rfl rfl rfl,
   (@C8_append_atomicity Nat).2 ⟨[], none, none⟩ _ _ "u1" .imageAnalyses .symptomChecks
      1 2 "d1" "d2" 10 11 _ rfl rfl rfl⟩

/-- C9: each analysis flow raises exactly when the model's output is null:
a null output makes the flow throw (no retry, no defaulted result), and a
non-null output is returned without raising. For the voice flow this holds
for every valid request (one of audio or text present); an invalid request
takes the early-return path without calling the model. -/
theorem C9_null_output_fatal :
    (∀ o, (∃ e, Flows.checkSymptomsFlow o = .error e) ↔ o = none)
  ∧ (∀ o, (∃ e, Flows.assessMentalHealthFlow o = .error e) ↔ o = none)
  ∧ (∀ o, (∃ e, Flows.analyzeImageFlow o = .error e) ↔ o = none)
  ∧ (∀ o, (∃ e, Flows.analyzeDietFlow o = .error e) ↔ o = none)
  ∧ (∀ (hasAudio hasDescription : Bool) o,
        hasAudio = true ∨ hasDescription = true →
        ((∃ e, Flows.voiceDiagnosisFlow hasAudio hasDescription o = .error e) ↔ o = none)) := by
  refine ⟨?_, ?_, ?_, ?_, ?_⟩
  · intro o
    cases o <;> simp [Flows.checkSymptomsFlow]
  · intro o
    cases o <;> simp [Flows.assessMentalHealthFlow]
  · intro o
    cases o <;> simp [Flows.analyzeImageFlow]
  · intro o
    cases o <;> simp [Flows.analyzeDietFlow]
  · intro hasAudio hasDescription o hvalid
    have hcond : ¬(hasAudio = false ∧ hasDescription = false) := by
      rcases hvalid with h | h <;> simp [h]
    cases o <;> simp [Flows.voiceDiagnosisFlow, hcond]

/-- C9 (witness): the voice-flow conjunct at a concrete valid request. -/
theorem C9_witness :
    (∃ e, Flows.voiceDiagnosisFlow true false none = .error e) ↔
      (none : Option Flows.VoiceDiagnosisRawOutput) = none :=
  C9_null_output_fatal.2.2.2.2 true false none (Or.inl rfl)

/-- C4: for a symptom-checker AI response that supplies the other expected
fields (with a non-empty `urgencyReasoning`) but omits
`doctorRecommendations` (or supplies it empty) and omits
`indianMedicalRecommendations`, normalization returns the input with exactly
`doctorRecommendations = ["General Practitioner"]` and
`indianMedicalRecommendations = []`; and for a mental-health response whose
`resourceSuggestions` is missing or empty, the back-filled value is exactly
`["General Practitioner", "Mental Health Professional"]`. -/
theorem C4_default_backfill :
    (∀ (o : Flows.CheckSymptomsRawOutput) (pc : List String) (u : Flows.Urgency)
        (ur : String) (sns : List String),
        o.potentialConditions = some pc → o.urgency = some u →
        o.urgencyReasoning = some ur → ur ≠ "" → o.suggestedNextSteps = some sns →
        (o.doctorRecommendations = none ∨ o.doctorRecommendations = some []) →
        o.indianMedicalRecommendations = none →
        Flows.normalizeCheckSymptomsOutput o = { o with doctorRecommendations := some ["General Practitioner"], indianMedicalRecommendations := some [] })
  ∧ (∀ o : Flows.AssessMentalHealthRawOutput,
        (o.resourceSuggestions = none ∨ o.resourceSuggestions = some []) →
        (Flows.normalizeAssessMentalHealthOutput o).resourceSuggestions =
          some ["General Practitioner", "Mental Health Professional"]) := by
  constructor
  · rintro ⟨opc, ou, our, osns, odr, oimr⟩ pc u ur sns hpc hu hur hne hsns hdr himr
    dsimp only at hpc hu hur hsns himr hdr
    subst hpc hu hur hsns himr
    rcases hdr with hdr | hdr <;> subst hdr <;>
      simp [Flows.normalizeCheckSymptomsOutput, Flows.checkSymptomsFillIndian,
        Flows.checkSymptomsEnsureDoctor, Flows.checkSymptomsBackfill,
        Flows.nullish, Flows.nonEmptyOr, Flows.strFalsy, hne]
  · rintro ⟨oa, orecs, ors, ocw, oimr⟩ hrs
    dsimp only at hrs
    rcases hrs with hrs | hrs <;> subst hrs <;>
      simp [Flows.normalizeAssessMentalHealthOutput, Flows.assessMentalHealthFillIndian,
        Flows.assessMentalHealthEnsureResources, Flows.assessMentalHealthBackfill,
        Flows.nullish, Flows.nonEmptyOr, Flows.strFalsy] <;>
      split_ifs <;> simp_all

/-- C4 (witness): a concrete symptom-checker response missing both
recommendation lists, and a concrete mental-health response missing its
resource suggestions. -/
theorem C4_witness :
    Flows.normalizeCheckSymptomsOutput
      ⟨some ["flu"], some .low, some "mild symptoms", some ["rest"], none, none⟩ =
      ⟨some ["flu"], some .low, some "mild symptoms", some ["rest"],
        some ["General Practitioner"], some []⟩
  ∧ (Flows.normalizeAssessMentalHealthOutput
      ⟨some "ok", some ["walk"], none, none, none⟩).resourceSuggestions =
      some ["General Practitioner", "Mental Health Professional"] :=
  ⟨C4_default_backfill.1 ⟨some ["flu"], some .low, some "mild symptoms", some ["rest"], none, none⟩
      ["flu"] .low "mild symptoms" ["rest"] rfl rfl rfl (by decide) rfl (Or.inl rfl) rfl,
   C4_default_backfill.2 ⟨some "ok", some ["walk"], none, none, none⟩ (Or.inl rfl)⟩

/-- C10: when `window` is undefined, `saveAnalysisResult` returns
successfully while leaving the store untouched (a silent no-op), and
`getUserAnalyses` returns the empty list — so a successful save does not
imply a record was stored. -/
theorem C10_window_undefined_noop {R : Type} :
    ∀ (env : LocalStorageService.LSEnv) (store : LocalStorageService.LocalStore R)
      (userId : String) (t : AnalysisType) (r : R) (newId : String) (now : Nat),
      env.windowDefined = false →
      LocalStorageService.saveAnalysisResult env store userId t r newId now = .ok store
      ∧ LocalStorageService.getUserAnalyses env store userId = [] := by
  intro env store userId t r newId now hw
  constructor
  · simp [LocalStorageService.saveAnalysisResult, hw]
  · simp [LocalStorageService.getUserAnalyses, hw]

/-- C10 (witness): a concrete non-browser environment. -/
theorem C10_witness :
    LocalStorageService.saveAnalysisResult ⟨false, false, none⟩
      (LocalStorageService.LocalStore.empty : LocalStorageService.LocalStore Nat)
      "u1" .imageAnalyses 7 "a" 5 = .ok LocalStorageService.LocalStore.empty
    ∧ LocalStorageService.getUserAnalyses ⟨false, false, none⟩
      (LocalStorageService.LocalStore.empty : LocalStorageService.LocalStore Nat) "u1" = [] :=
  C10_window_undefined_noop ⟨false, false, none⟩ LocalStorageService.LocalStore.empty
    "u1" .imageAnalyses 7 "a" 5 rfl

end MedicalChatBot
